import Mathlib

/-
Verification of the supervision-and-lifecycle layer of the neux-api
backend: the supervisor in src/backend/server.mjs and the worker runtime
in src/backend/worker.mjs.  Every definition below is a shallow embedding
of a concrete piece of that source; the file and line of the embedded
code is named in the doc comment of each definition.
-/

namespace Neux

/-! ## Configuration values

Configuration entries reach the code either as strings (environment
variables, nconf command-line or env stores), as numbers (nconf JSON
file stores, destructuring defaults), or as undefined when the entry is
absent.  JsVal models exactly these three shapes. -/

/-- A JavaScript configuration value: a string, a number, or undefined. -/
inductive JsVal where
  | vStr (s : String)
  | vNum (n : Int)
  | undef
  deriving DecidableEq

/-- JavaScript ToString coercion as applied by template literals and the
`+` operator: strings pass through, numbers print in decimal, undefined
prints as the word undefined. -/
def jsValToString : JsVal → String
  | .vStr s => s
  | .vNum n => toString n
  | .undef => "undefined"

/-- Decimal value of a digit character. -/
def digitVal (c : Char) : Int := (c.toNat : Int) - 48

/-- Value of a run of decimal digit characters. -/
def digitsVal (ds : List Char) : Int :=
  ds.foldl (fun a c => a * 10 + digitVal c) 0

/-- Parse the maximal leading run of decimal digits; none when the run is
empty (the NaN outcome of parseInt). -/
def parseDigits (cs : List Char) : Option Int :=
  let ds := cs.takeWhile Char.isDigit
  if ds.isEmpty then none else some (digitsVal ds)

/-- JavaScript parseInt on a string (radix 10 shapes, which is all the
timeout settings can be): skip leading whitespace, optional sign, then a
maximal digit run; trailing garbage ignored; none models NaN.  The
automatic radix-16 detection for 0x literals is not modelled, as no
timeout value uses it. -/
def parseIntStr (s : String) : Option Int :=
  let cs := s.data.dropWhile (fun c => c == ' ' || c == '\t' || c == '\n' || c == '\r')
  match cs with
  | '-' :: rest => (parseDigits rest).map (fun n => -n)
  | '+' :: rest => parseDigits rest
  | _ => parseDigits cs

/-- JavaScript parseInt applied to a configuration value, as in
parseInt(nconf.get(...)) in src/backend/worker.mjs line 26 and
parseInt(TIMEOUT) in src/backend/server.mjs line 17.  parseInt coerces
its argument to a string first, so an absent value parses the word
undefined and yields NaN (none). -/
def jsParseInt (v : JsVal) : Option Int := parseIntStr (jsValToString v)

/-- The idiom parseInt(x) or-else 0 from src/backend/worker.mjs line 246:
NaN is falsy and is replaced by 0. -/
def jsParseIntOr0 (v : JsVal) : Int := (jsParseInt v).getD 0

/-- Guard of the forced-exit timer, the test timeout > 0 in
src/backend/worker.mjs line 27 and src/backend/server.mjs line 18; a NaN
comparison is false in JavaScript. -/
def timerArmed (v : JsVal) : Bool :=
  match jsParseInt v with
  | some t => decide (0 < t)
  | none => false

/-- The effective TIMEOUT value of the supervisor process, from the
destructuring const \x7b TIMEOUT = 10 \x7d = process.env in
src/backend/server.mjs lines 8-11: an absent environment variable is
replaced by the number 10, a present one is a string. -/
def serverTimeoutVal (env : Option String) : JsVal :=
  match env with
  | some s => JsVal.vStr s
  | none => JsVal.vNum 10

/-! ## Events and process traces -/

/-- Observable actions of the lifecycle code, used to record one
execution of a shutdown or startup path as a trace. -/
inductive Ev where
  | setExecuted
  | armTimer (millis : Int)
  | emitShutdownPublished
  | subSyncRun (i : Nat)
  | subComplete (i : Nat)
  | dbDisconnected
  | closeBegin (listener : Nat)
  | closeComplete (listener : Nat)
  | logInfo (msg : String)
  | logError (msg : String)
  | exitProc (code : Int)
  | scheduleShutdown (millis : Int)
  | forkWorker
  deriving DecidableEq

/-- Boolean classifier: the event is the start of a listener close. -/
def isCloseBegin : Ev → Bool
  | .closeBegin _ => true
  | _ => false

/-- Boolean classifier: the event is the publication of the shutdown
lifecycle event. -/
def isEmitPub : Ev → Bool
  | .emitShutdownPublished => true
  | _ => false

/-- Boolean classifier: the event is a logger call. -/
def isLogEv : Ev → Bool
  | .logInfo _ => true
  | .logError _ => true
  | _ => false

/-- The callback of the forced-exit timer, the closure
() => process.exit(1) in src/backend/worker.mjs line 28 and
src/backend/server.mjs line 19.  It closes over nothing: whatever the
teardown progress when the timer fires, it exits with status 1. -/
def forcedExitCallback (teardownProgress : Nat) : Ev := Ev.exitProc 1

/-- Modelled from the spec: the lifecycle event bus modules
(src/backend/events/lifecycle.mjs and src/backend/utils/events.mjs) are
not under src; per spec section 4.5 publishing synchronously invokes
every registered subscriber, and a subscriber either completes
immediately (entry true) or returns a pending operation (entry false).
The trace of one emit records the publication, the synchronous run of
each subscriber, and the completion of exactly the synchronous ones; a
pending completion is resolved only by its own later external event, so
it appears in the trace of the emitting turn only if some later await
blocks on it. -/
def emitEvents (subs : List Bool) : List Ev :=
  Ev.emitShutdownPublished
    :: ((List.range subs.length).map Ev.subSyncRun
      ++ ((List.range subs.length).filter (fun i => subs.getD i false)).map Ev.subComplete)

/-- Environment of one run of the worker shutdown function: the timeout
configuration value, the shutdown subscribers of the lifecycle bus
(true = completes synchronously), and whether db.disconnect resolves
(true) or rejects with the given message (false). -/
structure WorkerShutdownCfg where
  timeoutVal : JsVal
  subs : List Bool
  dbOk : Bool
  dbErrMsg : String

/-- Body of the worker shutdown function, src/backend/worker.mjs lines
23-46, as the trace of the execution in which the guard has passed, both
listener closes complete, and pending subscriber promises have not yet
resolved (nothing in the code awaits them: line 31 drops the result of
lifecycle.emit).  Steps in source order: set the executed flag; arm the
forced-exit timer when parseInt(timeout) > 0; call lifecycle.emit
without awaiting it; await db.disconnect; close both listeners and await
them; exit 0 - or, when the disconnect rejects, log the error and
exit 1. -/
def workerShutdownBody (c : WorkerShutdownCfg) : List Ev :=
  Ev.setExecuted
    :: ((if timerArmed c.timeoutVal then
          [Ev.armTimer ((jsParseInt c.timeoutVal).getD 0 * 1000)]
        else [])
      ++ emitEvents c.subs
      ++ (if c.dbOk then
            [Ev.dbDisconnected, Ev.closeBegin 0, Ev.closeBegin 1,
             Ev.closeComplete 0, Ev.closeComplete 1, Ev.exitProc 0]
          else [Ev.logError c.dbErrMsg, Ev.exitProc 1]))

/-- Environment of one run of the supervisor-module shutdown function of
src/backend/server.mjs: the effective TIMEOUT value, whether the process
is the cluster primary, the exit code argument, and the shutdown
subscribers of its event bus. -/
structure ServerShutdownCfg where
  timeoutEnv : JsVal
  isPrimary : Bool
  code : Int
  subs : List Bool

/-- Body of the shutdown function in src/backend/server.mjs lines 14-36,
as a trace, for the execution in which the guard has passed: set the
executed flag; arm the forced-exit timer when parseInt(TIMEOUT) > 0; on
the primary, return at once (line 21); otherwise await events.emit, and
once every subscriber has completed log the stop message and exit with
the given code.  The bus module is not under src, so the awaited emit
follows the spec (section 4.5): when some subscriber never completes the
await never resolves and the trace ends there. -/
def serverShutdownBody (c : ServerShutdownCfg) : List Ev :=
  Ev.setExecuted
    :: ((if timerArmed c.timeoutEnv then
          [Ev.armTimer ((jsParseInt c.timeoutEnv).getD 0 * 1000)]
        else [])
      ++ (if c.isPrimary then []
          else emitEvents c.subs
            ++ (if c.subs.all (fun b => b) then
                  [Ev.logInfo "Worker has been stopped", Ev.exitProc c.code]
                else [])))

/-- The sources that can invoke a shutdown function: the signal handlers
of src/backend/server.mjs lines 47-53 and src/backend/worker.mjs lines
71-75, the exit hook, the startup-failure path of worker.mjs line 247,
and the credential file watcher of worker.mjs line 56.  All of them call
the same function, so the trigger kind does not influence the guard. -/
inductive Trigger where
  | sigterm
  | sigint
  | sigusr2
  | procExitEv (code : Int)
  | startupError
  | credFileChange
  deriving DecidableEq

/-- Fire a sequence of triggers at a guarded shutdown function whose
guard is the executed flag (if (shutdown.executed) return; then
shutdown.executed = true), as in src/backend/worker.mjs lines 24-25 and
src/backend/server.mjs lines 15-16.  The result lists, per trigger, the
trace that the call produced; a call finding the flag set returns at
once with the empty trace, and any call leaves the flag set. -/
def fireSeq (body : List Ev) : List Trigger → Bool → List (List Ev)
  | [], _ => []
  | _ :: ts, flag => (if flag then [] else body) :: fireSeq body ts true

/-- The cluster exit handler of the supervisor, src/backend/server.mjs
lines 61-64: if (shutdown.executed) return; cluster.fork().  The exit
code and signal parameters of the handler are ignored by the source. -/
def onExitHandler (executed : Bool) (code : Int) (signal : Option String) : List Ev :=
  if executed then [] else [Ev.forkWorker]

/-- The cluster message handler of the supervisor, src/backend/server.mjs
lines 66-70: for every id in cluster.workers, send the payload to that
worker.  The sending worker argument of the handler is not consulted.
The result is the list of (worker id, payload) sends performed. -/
def onMessageSends (workers : List Nat) (senderId : Nat) (payload : String) :
    List (Nat × String) :=
  workers.map (fun id => (id, payload))

/-- The catch block of the worker startup function, src/backend/worker.mjs
lines 245-248: schedule the shutdown function after
(parseInt(timeout) or-else 0) seconds.  The trace records everything the
block does. -/
def startupCatchTrace (timeoutVal : JsVal) : List Ev :=
  [Ev.scheduleShutdown (jsParseIntOr0 timeoutVal * 1000)]

/-- Scan of a trace: true when no q-event occurs strictly before the
first p-event; that is, every q-occurrence is preceded by some
p-occurrence. -/
def allBefore (p q : Ev → Bool) : List Ev → Bool
  | [] => true
  | e :: rest => if q e then false else if p e then true else allBefore p q rest

/-! ## The secondary plaintext listener -/

/-- Body of an HTTP response in the model: empty (redirects), plain text,
or the raw bytes of a file. -/
inductive Body where
  | empty
  | text (s : String)
  | bytes (bs : List Nat)
  deriving DecidableEq

/-- An HTTP response as produced by the secondary-listener handler. -/
structure Response where
  status : Nat
  headers : List (String × String)
  body : Body
  deriving DecidableEq

/-- The parts of an incoming request consulted by the secondary-listener
handler: req.url and the host request header. -/
structure PlainReq where
  url : String
  host : String
  deriving DecidableEq

/-- JavaScript truthiness of an optional string configuration value:
absent and empty are falsy. -/
def truthyOpt : Option String → Bool
  | none => false
  | some s => !(s == "")

/-- The first list is an initial segment of the second. -/
def listStarts : List Char → List Char → Bool
  | [], _ => true
  | _ :: _, [] => false
  | p :: ps, c :: cs => p == c && listStarts ps cs

/-- The string s begins with the pattern pat. -/
def strStarts (s pat : String) : Bool := listStarts pat.data s.data

/-- The anchored regular expression test of src/backend/worker.mjs line
214, matching URLs under the ACME HTTP-01 challenge path. -/
def urlMatchesAcme (url : String) : Bool :=
  strStarts url "/.well-known/acme-challenge/"

/-- path.join as used at src/backend/worker.mjs line 215, for the shapes
occurring there: the second component is a request URL beginning with a
slash, which join appends to the webroot; otherwise a separating slash
is inserted.  Full node normalization (duplicate separators, dot
segments) is not modelled; the webroot and filesystem are opaque
parameters of the theorems, so only the pairing matters. -/
def pathJoin (a b : String) : String :=
  if strStarts b "/" then a ++ b else a ++ "/" ++ b

/-- JavaScript strict equality of a configuration value with a string
literal, the comparison port === the-string-443 at
src/backend/worker.mjs line 231: a number never strictly equals a
string. -/
def jsStrictEqStr : JsVal → String → Bool
  | .vStr t, s => t == s
  | _, _ => false

/-- The request handler of the secondary plaintext listener,
src/backend/worker.mjs lines 208-233.  When a webroot is configured and
the URL matches the ACME challenge path, the file at
path.join(webroot, url) is served: 404 with a plain-text Not Found body
when the read fails, otherwise 200 with the file bytes and a
Content-Length equal to their count.  Every other request receives a 301
redirect to https on the host header, with the port suffix omitted
exactly when the configured port is strictly equal to the string 443.
The filesystem is a parameter mapping a path to its bytes or none. -/
def secondaryHandler (fsRead : String → Option (List Nat))
    (webroot : Option String) (port : JsVal) (req : PlainReq) : Response :=
  if truthyOpt webroot && urlMatchesAcme req.url then
    match fsRead (pathJoin (webroot.getD "") req.url) with
    | some data =>
        ⟨200, [("Content-Length", toString data.length), ("Content-Type", "text/plain")],
          Body.bytes data⟩
    | none =>
        ⟨404, [("Content-Type", "text/plain")], Body.text "Not Found"⟩
  else
    ⟨301,
      [("Location",
        "https://" ++ req.host
          ++ (if jsStrictEqStr port "443" then "" else ":" ++ jsValToString port)
          ++ req.url)],
      Body.empty⟩

/-- The Location header of a response. -/
def locationHeader (r : Response) : Option String := r.headers.lookup "Location"

/-! ## TLS credential parsing and protocol selection -/

/-- Replace every two-character sequence backslash-n by a newline, the
regex replace at src/backend/worker.mjs line 53. -/
def unescapeNewlines : List Char → List Char
  | '\\' :: 'n' :: rest => '\n' :: unescapeNewlines rest
  | c :: rest => c :: unescapeNewlines rest
  | [] => []

/-- The try block of parseConf, src/backend/worker.mjs lines 51-58: an
inline PEM value (leading five dashes) has its escaped newlines
unescaped; any other value is treated as a path, read from the
filesystem, and registered with the file watcher.  A failing read is an
exception.  The ok result carries the returned text and the list of
paths put under watch. -/
def parseConfBody (fsRead : String → Except String String) (v : String) :
    Except String (String × List String) :=
  if strStarts v "-----" then
    Except.ok (String.mk (unescapeNewlines v.data), [])
  else
    match fsRead v with
    | Except.ok data => Except.ok (data, [v])
    | Except.error m => Except.error m

/-- parseConf, src/backend/worker.mjs lines 49-66: a falsy value returns
undefined at once; otherwise the try block runs and a thrown error is
caught, logged, and turned into an undefined return.  The result is the
returned value, the error messages logged, and the paths put under
watch. -/
def parseConf (fsRead : String → Except String String) (val : Option String) :
    Option String × List String × List String :=
  match val with
  | none => (none, [], [])
  | some v =>
    if v == "" then (none, [], [])
    else
      match parseConfBody fsRead v with
      | Except.ok (d, w) => (some d, [], w)
      | Except.error m => (none, [m], [])

/-- The protocol choice and server construction of
src/backend/worker.mjs lines 80-92: the protocol is https exactly when
the raw ssl:key and ssl:cert configuration values are truthy, decided
before any credential is parsed; an https server is then built with the
parseConf results as its key, cert and ca options. -/
structure ServerConstruction where
  proto : String
  key : Option String
  cert : Option String
  ca : Option String

/-- Perform the protocol selection and server construction of
src/backend/worker.mjs lines 80-92 against a filesystem. -/
def buildServer (fsRead : String → Except String String)
    (sslKey sslCert sslCa : Option String) : ServerConstruction :=
  let protocol := if truthyOpt sslKey && truthyOpt sslCert then "https" else "http"
  if protocol == "https" then
    ⟨protocol, (parseConf fsRead sslKey).1, (parseConf fsRead sslCert).1,
      (parseConf fsRead sslCa).1⟩
  else
    ⟨"http", none, none, none⟩

/-! ## Helper lemmas -/

/-- Once the executed flag is set, every further trigger produces the
empty trace. -/
lemma fireSeq_flag_set (body : List Ev) (ts : List Trigger) :
    fireSeq body ts true = ts.map (fun _ => ([] : List Ev)) := by
  induction ts with
  | nil => rfl
  | cons t ts ih => simp [fireSeq, ih]

/-- A list of empty traces contains no nonempty trace. -/
lemma countP_nonempty_map_empty (ts : List Trigger) :
    ((ts.map fun _ => ([] : List Ev)).countP fun tr => !tr.isEmpty) = 0 := by
  induction ts with
  | nil => rfl
  | cons t ts ih => simp [List.countP_cons, ih]

/-- Scanning for the first p-event skips over a segment containing
neither a p-event nor a q-event. -/
lemma allBefore_append (p q : Ev → Bool) (l1 l2 : List Ev)
    (h : ∀ e ∈ l1, p e = false ∧ q e = false) :
    allBefore p q (l1 ++ l2) = allBefore p q l2 := by
  induction l1 with
  | nil => rfl
  | cons e es ih =>
    have he := h e (List.mem_cons_self e es)
    rw [List.cons_append, allBefore, he.1, he.2]
    simp only [if_neg Bool.false_ne_true]
    exact ih (fun x hx => h x (List.mem_cons_of_mem e hx))

/-- The timer guard holds exactly when the configured value parses to a
strictly positive number. -/
lemma timerArmed_iff (v : JsVal) :
    timerArmed v = true ↔ ∃ t, jsParseInt v = some t ∧ 0 < t := by
  cases h : jsParseInt v with
  | none => simp [timerArmed, h]
  | some t => simp [timerArmed, h]

/-- A timer event occurs in the worker shutdown trace exactly when the
timer guard holds. -/
lemma armTimer_in_workerBody (c : WorkerShutdownCfg) :
    (∃ m, Ev.armTimer m ∈ workerShutdownBody c) ↔ timerArmed c.timeoutVal = true := by
  cases h : timerArmed c.timeoutVal <;> cases hd : c.dbOk <;>
    simp [workerShutdownBody, emitEvents, h, hd]

/-- A timer event occurs in the supervisor-module shutdown trace exactly
when the timer guard holds. -/
lemma armTimer_in_serverBody (c : ServerShutdownCfg) :
    (∃ m, Ev.armTimer m ∈ serverShutdownBody c) ↔ timerArmed c.timeoutEnv = true := by
  cases h : timerArmed c.timeoutEnv <;> cases hp : c.isPrimary <;>
    cases ha : c.subs.all (fun b => b) <;>
      simp [serverShutdownBody, emitEvents, h, hp, ha]

/-- A configuration value other than the string 443 is not strictly
equal to the string 443. -/
lemma jsStrictEqStr_443_false {port : JsVal} (hp : port ≠ JsVal.vStr "443") :
    jsStrictEqStr port "443" = false := by
  cases port with
  | vStr t =>
    have ht : t ≠ "443" := fun h => hp (by rw [h])
    simpa [jsStrictEqStr] using ht
  | vNum n => rfl
  | undef => rfl

/-- A URL with a port suffix inserted after the host differs from the
same URL without it: the lengths differ by the suffix. -/
lemma withPort_ne_noPort (base p u : String) :
    base ++ (":" ++ p) ++ u ≠ base ++ u := by
  intro heq
  have hlen := congrArg String.length heq
  simp only [String.length_append] at hlen
  have h1 : (":" : String).length = 1 := rfl
  omega

/-! ## Claims -/

/-- C1: in both the worker and the supervisor module, the body of the
guarded shutdown function runs on the first trigger of a sequence (the
trace sets the executed flag and proceeds), every later trigger returns
at once with an empty trace, and over any trigger sequence at most one
call produces a nonempty trace. -/
theorem shutdown_at_most_once :
    ∀ (wc : WorkerShutdownCfg) (sc : ServerShutdownCfg) (t : Trigger)
      (ts rest : List Trigger),
    fireSeq (workerShutdownBody wc) (t :: ts) false
        = workerShutdownBody wc :: ts.map (fun _ => []) ∧
    fireSeq (serverShutdownBody sc) (t :: ts) false
        = serverShutdownBody sc :: ts.map (fun _ => []) ∧
    Ev.setExecuted ∈ workerShutdownBody wc ∧
    Ev.setExecuted ∈ serverShutdownBody sc ∧
    ((fireSeq (workerShutdownBody wc) rest false).countP fun tr => !tr.isEmpty) ≤ 1 ∧
    ((fireSeq (serverShutdownBody sc) rest false).countP fun tr => !tr.isEmpty) ≤ 1 := by
  intro wc sc t ts rest
  have hcount : ∀ body : List Ev,
      ((fireSeq body rest false).countP fun tr => !tr.isEmpty) ≤ 1 := by
    intro body
    cases rest with
    | nil => simp [fireSeq]
    | cons r rs =>
      rw [fireSeq, fireSeq_flag_set]
      simp only [List.countP_cons, countP_nonempty_map_empty]
      repeat' split
      all_goals simp
  refine ⟨?_, ?_, List.mem_cons_self _ _, List.mem_cons_self _ _, hcount _, hcount _⟩
  · rw [fireSeq, fireSeq_flag_set]; simp
  · rw [fireSeq, fireSeq_flag_set]; simp

/-- C1 witness: two triggers against the worker shutdown function with a
concrete configuration; the first call runs the body, the second returns
the empty trace. -/
theorem shutdown_at_most_once_witness :
    fireSeq (workerShutdownBody ⟨JsVal.vStr "0", [true], true, ""⟩)
        [Trigger.sigint, Trigger.sigterm] false
      = [workerShutdownBody ⟨JsVal.vStr "0", [true], true, ""⟩, []] ∧
    ((fireSeq (workerShutdownBody ⟨JsVal.vStr "0", [true], true, ""⟩)
        [Trigger.sigint, Trigger.sigterm] false).countP fun tr => !tr.isEmpty) ≤ 1 := by
  have h := shutdown_at_most_once ⟨JsVal.vStr "0", [true], true, ""⟩
    ⟨JsVal.vNum 10, true, 0, []⟩ Trigger.sigint [Trigger.sigterm]
    [Trigger.sigint, Trigger.sigterm]
  exact ⟨h.1, h.2.2.2.2.1⟩

/-- C2: the supervisor exit handler forks exactly one replacement worker
when the shutdown flag is false, and forks nothing when it is true,
whatever the exit code and signal of the dead worker. -/
theorem respawn_iff_not_shutdown :
    ∀ (code : Int) (signal : Option String),
    onExitHandler false code signal = [Ev.forkWorker] ∧
    onExitHandler true code signal = [] ∧
    (∀ e : Bool, onExitHandler e code signal ≠ [] ↔ e = false) := by
  intro code signal
  refine ⟨rfl, rfl, ?_⟩
  intro e
  cases e <;> simp [onExitHandler]

/-- C2 witness: a worker exit with code 1 and no signal while the flag is
false forks exactly one worker; the same exit with the flag set forks
none. -/
theorem respawn_iff_not_shutdown_witness :
    onExitHandler false 1 none = [Ev.forkWorker] ∧ onExitHandler true 1 none = [] := by
  have h := respawn_iff_not_shutdown 1 none
  exact ⟨h.1, h.2.1⟩

/-- C3 counterexample: with one shutdown subscriber that returns a
pending operation, the worker shutdown trace reaches the start of a
listener close while that subscriber has not completed - the completion
is nowhere in the trace, because line 31 of src/backend/worker.mjs drops
the result of lifecycle.emit instead of awaiting it.  This refutes the
requirement that all subscriber completions are awaited before the
listener closes begin. -/
theorem pending_subscriber_not_awaited :
    Ev.closeBegin 0 ∈ workerShutdownBody ⟨JsVal.vStr "0", [false], true, ""⟩ ∧
    Ev.subComplete 0 ∉ workerShutdownBody ⟨JsVal.vStr "0", [false], true, ""⟩ := by
  decide

/-- C3 (amended): in every worker shutdown execution the shutdown event
is published before any listener close begins; what the source does not
do is await the pending subscriber completions in between. -/
theorem emit_before_close :
    ∀ c : WorkerShutdownCfg,
    allBefore isEmitPub isCloseBegin (workerShutdownBody c) = true := by
  intro c
  cases h : timerArmed c.timeoutVal <;>
    simp [workerShutdownBody, emitEvents, allBefore, h, isEmitPub, isCloseBegin]

/-- C3 witness: the publication-before-close ordering at a concrete
configuration with one synchronous subscriber. -/
theorem emit_before_close_witness :
    allBefore isEmitPub isCloseBegin
      (workerShutdownBody ⟨JsVal.vStr "5", [true], true, ""⟩) = true :=
  emit_before_close ⟨JsVal.vStr "5", [true], true, ""⟩

/-- C4 counterexample: with live workers 1, 2, 3 and worker 1 as the
sender, the supervisor message handler sends the payload to worker 1 as
well - the loop at src/backend/server.mjs lines 67-69 iterates over all
of cluster.workers without excluding the sender, so the message is
re-delivered to the worker it came from. -/
theorem broadcast_echoes_to_sender :
    onMessageSends [1, 2, 3] 1 "hello" = [(1, "hello"), (2, "hello"), (3, "hello")] ∧
    (1, "hello") ∈ onMessageSends [1, 2, 3] 1 "hello" := by
  decide

/-- C4 (amended): the supervisor relays every broadcast message to every
live worker - all the other workers, and the sending worker itself as
well. -/
theorem broadcast_fanout_all :
    ∀ (workers : List Nat) (sender : Nat) (payload : String) (w : Nat),
    w ∈ workers → (w, payload) ∈ onMessageSends workers sender payload := by
  intro workers sender payload w hw
  exact List.mem_map_of_mem _ hw

/-- C4 witness: worker 2 (an other live worker) receives the payload sent
by worker 1. -/
theorem broadcast_fanout_all_witness :
    (2, "msg") ∈ onMessageSends [1, 2] 1 "msg" :=
  broadcast_fanout_all [1, 2] 1 "msg" 2 (by decide)

/-- C5 counterexample: on the supervisor an absent TIMEOUT environment
variable does not disable the forced-exit timer - the destructuring
default at src/backend/server.mjs line 9 replaces the absent value by
10, which parses to a positive number, so the timer is armed.  This
refutes the clause that an absent value disables forcing. -/
theorem absent_supervisor_timeout_arms_timer :
    serverTimeoutVal none = JsVal.vNum 10 ∧
    timerArmed (serverTimeoutVal none) = true ∧
    (∃ m, Ev.armTimer m ∈ serverShutdownBody ⟨serverTimeoutVal none, true, 0, []⟩) := by
  refine ⟨rfl, by decide, ⟨10 * 1000, ?_⟩⟩
  show Ev.armTimer (10 * 1000) ∈ serverShutdownBody ⟨JsVal.vNum 10, true, 0, []⟩
  decide

/-- C5 (amended): in both shutdown functions the forced-exit timer is
armed exactly when the effective timeout value parses to a strictly
positive number; a zero value disables it, and so does an absent worker
timeout (parseInt of undefined is NaN), while an absent supervisor
TIMEOUT defaults to 10 and arms it; when the timer fires it exits with
status 1 whatever the teardown progress. -/
theorem forced_exit_timer_spec :
    ∀ (wc : WorkerShutdownCfg) (sc : ServerShutdownCfg),
    ((∃ m, Ev.armTimer m ∈ workerShutdownBody wc)
        ↔ ∃ t, jsParseInt wc.timeoutVal = some t ∧ 0 < t) ∧
    ((∃ m, Ev.armTimer m ∈ serverShutdownBody sc)
        ↔ ∃ t, jsParseInt sc.timeoutEnv = some t ∧ 0 < t) ∧
    timerArmed JsVal.undef = false ∧
    timerArmed (JsVal.vNum 0) = false ∧
    timerArmed (JsVal.vStr "0") = false ∧
    (∀ p : Nat, forcedExitCallback p = Ev.exitProc 1) := by
  intro wc sc
  refine ⟨(armTimer_in_workerBody wc).trans (timerArmed_iff _),
    (armTimer_in_serverBody sc).trans (timerArmed_iff _),
    by decide, by decide, by decide, fun p => rfl⟩

/-- C5 witness: a worker timeout of 5 seconds arms the timer in the
worker shutdown trace, and a zero value leaves the timer unarmed. -/
theorem forced_exit_timer_spec_witness :
    (∃ m, Ev.armTimer m ∈ workerShutdownBody ⟨JsVal.vStr "5", [], true, ""⟩) ∧
    timerArmed (JsVal.vStr "0") = false := by
  have h := forced_exit_timer_spec ⟨JsVal.vStr "5", [], true, ""⟩ ⟨JsVal.vNum 10, true, 0, []⟩
  exact ⟨h.1.mpr ⟨5, by decide, by decide⟩, h.2.2.2.2.1⟩

/-- C6 counterexample: with the secure port configured as the number 443
(as an nconf JSON file store yields it), the redirect Location includes
the suffix :443 even though the configured secure port is the default
443 - the comparison port === the-string-443 at src/backend/worker.mjs
line 231 is strict, so a numeric 443 fails it.  This refutes the clause
that the Location omits the port suffix exactly when the configured
secure port is 443. -/
theorem numeric_port_443_suffix_present :
    (secondaryHandler (fun _ => none) none (JsVal.vNum 443)
        ⟨"/anything", "example.com"⟩).status = 301 ∧
    locationHeader (secondaryHandler (fun _ => none) none (JsVal.vNum 443)
        ⟨"/anything", "example.com"⟩) = some "https://example.com:443/anything" ∧
    locationHeader (secondaryHandler (fun _ => none) none (JsVal.vNum 443)
        ⟨"/anything", "example.com"⟩) ≠ some "https://example.com/anything" := by
  refine ⟨rfl, by decide, by decide⟩

/-- C6 (amended): every request on the secondary listener that does not
take the ACME branch receives a 301 redirect to https on the host
header, and the Location omits the port suffix exactly when the
configured secure port is the string 443; in particular the string 8443
yields the suffix :8443. -/
theorem redirect_port_suffix :
    ∀ (fsRead : String → Option (List Nat)) (webroot : Option String) (port : JsVal)
      (req : PlainReq),
    (truthyOpt webroot && urlMatchesAcme req.url) = false →
    (secondaryHandler fsRead webroot port req).status = 301 ∧
    (locationHeader (secondaryHandler fsRead webroot port req)
        = some ("https://" ++ req.host ++ req.url) ↔ port = JsVal.vStr "443") ∧
    (port = JsVal.vStr "8443" →
      locationHeader (secondaryHandler fsRead webroot port req)
        = some ("https://" ++ req.host ++ ":8443" ++ req.url)) := by
  intro f webroot port req h
  have hred : secondaryHandler f webroot port req
      = ⟨301, [("Location", "https://" ++ req.host
          ++ (if jsStrictEqStr port "443" then "" else ":" ++ jsValToString port)
          ++ req.url)], Body.empty⟩ := by
    unfold secondaryHandler
    rw [h]
    simp
  refine ⟨by rw [hred], ?_, ?_⟩
  · by_cases hp : port = JsVal.vStr "443"
    · subst hp
      simp [hred, locationHeader, List.lookup, jsStrictEqStr, String.append_empty]
    · have hj := jsStrictEqStr_443_false hp
      rw [hred]
      simp only [locationHeader, List.lookup, hj, if_neg Bool.false_ne_true,
        beq_self_eq_true]
      constructor
      · intro heq
        exact absurd (Option.some.inj heq) (withPort_ne_noPort _ _ _)
      · intro hc
        exact absurd hc hp
  · intro hp
    subst hp
    have hj : jsStrictEqStr (JsVal.vStr "8443") "443" = false := by decide
    have hs : (":" ++ "8443" : String) = ":8443" := by decide
    rw [hred]
    simp only [locationHeader, List.lookup, hj, if_neg Bool.false_ne_true,
      beq_self_eq_true, jsValToString, hs]

/-- C6 witness: a plaintext request for /anything with the secure port
configured as the string 8443 is answered 301 with the suffix :8443 in
the Location. -/
theorem redirect_port_suffix_witness :
    (secondaryHandler (fun _ => none) none (JsVal.vStr "8443")
        ⟨"/anything", "example.com"⟩).status = 301 ∧
    locationHeader (secondaryHandler (fun _ => none) none (JsVal.vStr "8443")
        ⟨"/anything", "example.com"⟩)
      = some ("https://" ++ "example.com" ++ ":8443" ++ "/anything") := by
  have h := redirect_port_suffix (fun _ => none) none (JsVal.vStr "8443")
    ⟨"/anything", "example.com"⟩ (by decide)
  exact ⟨h.1, h.2.2 rfl⟩

/-- C7: on the secondary listener, with a webroot configured and a URL
matching the ACME challenge path, a readable file is served with status
200, a body that is exactly the file bytes, and a Content-Length equal
to their count; a failing read is answered 404 with the plain-text body
Not Found. -/
theorem acme_challenge_serving :
    ∀ (fsRead : String → Option (List Nat)) (wr : String) (port : JsVal) (req : PlainReq),
    truthyOpt (some wr) = true →
    urlMatchesAcme req.url = true →
    ((∀ data, fsRead (pathJoin wr req.url) = some data →
        (secondaryHandler fsRead (some wr) port req).status = 200 ∧
        (secondaryHandler fsRead (some wr) port req).body = Body.bytes data ∧
        (secondaryHandler fsRead (some wr) port req).headers.lookup "Content-Length"
            = some (toString data.length)) ∧
     (fsRead (pathJoin wr req.url) = none →
        (secondaryHandler fsRead (some wr) port req).status = 404 ∧
        (secondaryHandler fsRead (some wr) port req).body = Body.text "Not Found" ∧
        (secondaryHandler fsRead (some wr) port req).headers.lookup "Content-Type"
            = some "text/plain")) := by
  intro f wr port req hw hu
  have hcond : (truthyOpt (some wr) && urlMatchesAcme req.url) = true := by
    simp [hw, hu]
  constructor
  · intro data hd
    refine ⟨?_, ?_, ?_⟩ <;> simp [secondaryHandler, hcond, hd, List.lookup]
  · intro hd
    refine ⟨?_, ?_, ?_⟩ <;> simp [secondaryHandler, hcond, hd, List.lookup]

/-- C7 witness: a webroot holding the bytes 116 111 107 at the token123
challenge path serves them with status 200 and body equal to the file,
and a request for a missing token is answered 404. -/
theorem acme_challenge_serving_witness :
    (secondaryHandler
        (fun p => if p == "webroot/.well-known/acme-challenge/token123"
          then some [116, 111, 107] else none)
        (some "webroot") (JsVal.vStr "443")
        ⟨"/.well-known/acme-challenge/token123", "example.com"⟩).status = 200 ∧
    (secondaryHandler
        (fun p => if p == "webroot/.well-known/acme-challenge/token123"
          then some [116, 111, 107] else none)
        (some "webroot") (JsVal.vStr "443")
        ⟨"/.well-known/acme-challenge/token123", "example.com"⟩).body
      = Body.bytes [116, 111, 107] ∧
    (secondaryHandler
        (fun p => if p == "webroot/.well-known/acme-challenge/token123"
          then some [116, 111, 107] else none)
        (some "webroot") (JsVal.vStr "443")
        ⟨"/.well-known/acme-challenge/missing", "example.com"⟩).status = 404 := by
  have hok := acme_challenge_serving
    (fun p => if p == "webroot/.well-known/acme-challenge/token123"
      then some [116, 111, 107] else none)
    "webroot" (JsVal.vStr "443")
    ⟨"/.well-known/acme-challenge/token123", "example.com"⟩ (by decide) (by decide)
  have hmiss := acme_challenge_serving
    (fun p => if p == "webroot/.well-known/acme-challenge/token123"
      then some [116, 111, 107] else none)
    "webroot" (JsVal.vStr "443")
    ⟨"/.well-known/acme-challenge/missing", "example.com"⟩ (by decide) (by decide)
  exact ⟨(hok.1 [116, 111, 107] (by decide)).1, (hok.1 [116, 111, 107] (by decide)).2.1,
    (hmiss.2 (by decide)).1⟩

/-- C8 counterexample: the startup-failure catch block of
src/backend/worker.mjs lines 245-248 schedules the delayed shutdown but
logs nothing - its trace holds no logger call, so the startup error
leaves no log trail of its own.  This refutes the clause that the
failure leaves a log trail for operators. -/
theorem startup_catch_has_no_log :
    startupCatchTrace (JsVal.vStr "10") = [Ev.scheduleShutdown 10000] ∧
    (¬ ∃ e ∈ startupCatchTrace (JsVal.vStr "10"), isLogEv e = true) := by
  refine ⟨by decide, by decide⟩

/-- C8 (amended): on startup failure the worker does not crash at once -
the catch block only schedules the shutdown function after
(parseInt(timeout) or-else 0) seconds, an absent timeout scheduling it
immediately, and the scheduled call then runs the full shutdown body;
but the catch block itself contains no exit and no logger call, so the
startup error is swallowed without a log trail. -/
theorem startup_failure_delayed_shutdown :
    ∀ (v : JsVal) (wc : WorkerShutdownCfg),
    startupCatchTrace v = [Ev.scheduleShutdown (jsParseIntOr0 v * 1000)] ∧
    (∀ code : Int, Ev.exitProc code ∉ startupCatchTrace v) ∧
    (∀ e ∈ startupCatchTrace v, isLogEv e = false) ∧
    jsParseIntOr0 JsVal.undef = 0 ∧
    fireSeq (workerShutdownBody wc) [Trigger.startupError] false = [workerShutdownBody wc] ∧
    Ev.setExecuted ∈ workerShutdownBody wc := by
  intro v wc
  refine ⟨rfl, ?_, ?_, by decide, by simp [fireSeq], List.mem_cons_self _ _⟩
  · intro code
    simp [startupCatchTrace]
  · intro e he
    simp only [startupCatchTrace, List.mem_singleton] at he
    subst he
    rfl

/-- C8 witness: a timeout value of 3 schedules the shutdown after 3000
milliseconds and the catch-block trace holds no process exit. -/
theorem startup_failure_delayed_shutdown_witness :
    startupCatchTrace (JsVal.vStr "3")
      = [Ev.scheduleShutdown (jsParseIntOr0 (JsVal.vStr "3") * 1000)] ∧
    Ev.exitProc 1 ∉ startupCatchTrace (JsVal.vStr "3") := by
  have h := startup_failure_delayed_shutdown (JsVal.vStr "3") ⟨JsVal.vStr "3", [], true, ""⟩
  exact ⟨h.1, h.2.1 1⟩

/-- C9: on the cluster primary any first shutdown trigger with a timeout
parsing to a positive number leaves exactly the trace set-flag then
arm-timer: the function returns at line 21 of src/backend/server.mjs
before publishing the shutdown event or exiting, so the primary never
exits with status 0 through its own shutdown function; the armed timer
later exits with status 1. -/
theorem primary_shutdown_never_exits_zero :
    ∀ c : ServerShutdownCfg, c.isPrimary = true →
    (∀ t, jsParseInt c.timeoutEnv = some t → 0 < t →
        serverShutdownBody c = [Ev.setExecuted, Ev.armTimer (t * 1000)]) ∧
    Ev.emitShutdownPublished ∉ serverShutdownBody c ∧
    (∀ code : Int, Ev.exitProc code ∉ serverShutdownBody c) ∧
    forcedExitCallback 0 = Ev.exitProc 1 := by
  intro c hp
  refine ⟨?_, ?_, ?_, rfl⟩
  · intro t hj ht
    have ha : timerArmed c.timeoutEnv = true := (timerArmed_iff _).mpr ⟨t, hj, ht⟩
    simp [serverShutdownBody, ha, hj, hp]
  · cases h : timerArmed c.timeoutEnv <;> simp [serverShutdownBody, h, hp]
  · intro code
    cases h : timerArmed c.timeoutEnv <;> simp [serverShutdownBody, h, hp]

/-- C9 witness: the primary with the default TIMEOUT of 10 and a clean
exit code 0 produces only the set-flag and arm-timer events, and no exit
with status 0 occurs in its shutdown trace. -/
theorem primary_shutdown_never_exits_zero_witness :
    serverShutdownBody ⟨JsVal.vNum 10, true, 0, []⟩
      = [Ev.setExecuted, Ev.armTimer (10 * 1000)] ∧
    Ev.exitProc 0 ∉ serverShutdownBody ⟨JsVal.vNum 10, true, 0, []⟩ := by
  have h := primary_shutdown_never_exits_zero ⟨JsVal.vNum 10, true, 0, []⟩ rfl
  exact ⟨h.1 10 (by decide) (by decide), h.2.2.1 0⟩

/-- C10: when a TLS credential value is a nonempty path (not inline PEM)
whose read fails, the parseConf try block raises the error but parseConf
itself returns undefined with the error logged instead of propagating
the exception; and since the protocol is chosen from the raw ssl:key and
ssl:cert values before parsing, the worker still builds an https server
whose key option is undefined rather than falling back to plaintext. -/
theorem tls_read_failure_keeps_https :
    ∀ (fsRead : String → Except String String) (kPath : String)
      (certVal caVal : Option String) (m : String),
    kPath ≠ "" →
    strStarts kPath "-----" = false →
    fsRead kPath = Except.error m →
    truthyOpt certVal = true →
    parseConfBody fsRead kPath = Except.error m ∧
    parseConf fsRead (some kPath) = (none, [m], []) ∧
    (buildServer fsRead (some kPath) certVal caVal).proto = "https" ∧
    (buildServer fsRead (some kPath) certVal caVal).key = none := by
  intro f kPath certVal caVal m hk hs hf hc
  have hb : parseConfBody f kPath = Except.error m := by
    simp [parseConfBody, hs, hf]
  have hbeq : (kPath == "") = false := beq_eq_false_iff_ne.mpr hk
  have hpc : parseConf f (some kPath) = (none, [m], []) := by
    simp [parseConf, hbeq, hb]
  have hck : truthyOpt (some kPath) = true := by
    simp [truthyOpt, hbeq]
  refine ⟨hb, hpc, ?_, ?_⟩
  · simp [buildServer, hck, hc]
  · simp [buildServer, hck, hc, hpc]

/-- C10 witness: with ssl:key pointing at key.pem, ssl:cert configured,
and a filesystem whose reads all fail with ENOENT, parseConf returns
undefined and the logged message, and the worker builds an https server
with an undefined key. -/
theorem tls_read_failure_keeps_https_witness :
    parseConf (fun _ => Except.error "ENOENT") (some "key.pem")
      = (none, ["ENOENT"], []) ∧
    (buildServer (fun _ => Except.error "ENOENT") (some "key.pem")
        (some "cert.pem") none).proto = "https" ∧
    (buildServer (fun _ => Except.error "ENOENT") (some "key.pem")
        (some "cert.pem") none).key = none := by
  have h := tls_read_failure_keeps_https (fun _ => Except.error "ENOENT") "key.pem"
    (some "cert.pem") none "ENOENT" (by decide) (by decide) rfl (by decide)
  exact ⟨h.2.1, h.2.2.1, h.2.2.2⟩

end Neux
